import Mathlib

/-!
Verification of the route-safety analysis core of `app.py` (truck navigation):
geometry utilities (bearing, turn angle, recommended speed), route densification,
traffic simulation, risk-zone identification and report aggregation.

The Python source computes with IEEE floats; the embedding uses `ℝ` (for the
trigonometric geometry and coordinates) and `ℚ`/`ℕ` (for the exact policy
tables, counters and integer risk scores of the source).  External library
calls are passed in as explicit parameters: `geopy.geodesic` becomes a
distance-function argument (`Option`-valued where the source guards it with
`try/except`, so a raised exception is modelled as `none`), `np.random` becomes
an injected draw function, and Python's `float(...)` string parsing becomes an
`Option ℚ`-valued parser argument.
-/

/-- Constant from the source: average truck weight in tonnes (37.5). -/
def TRUCK_WEIGHT : ℚ := 75 / 2

/-- Constant from the source: maximum speed limit in kmph. -/
def MAX_SPEED_LIMIT : ℕ := 60

/-- Constant from the source (unused by the analysed functions). -/
def SAFE_TURN_ANGLE : ℕ := 130

/-- Constant from the source (unused by the analysed functions). -/
def DANGEROUS_TURN_ANGLE : ℕ := 30

/-- Python's float modulo for a real modulus: `a % b = a - b * floor (a / b)`. -/
noncomputable def fmod (a b : ℝ) : ℝ := a - b * ⌊a / b⌋

/-- Python's `math.atan2 y x`: the argument of the complex number `x + y*I`,
in `(-π, π]`, with `atan2 0 0 = 0`. -/
noncomputable def atan2 (y x : ℝ) : ℝ := Complex.arg ⟨x, y⟩

/-- Embedding of `calculate_bearing(lat1, lng1, lat2, lng2)` from `app.py`:
radians conversion, spherical bearing components, `atan2`, degrees conversion,
then `(· + 360) % 360`.  (The `except: return 0` branch of the source is
unreachable over `ℝ`, which has no NaN/infinite values.) -/
noncomputable def calculate_bearing (lat1 lng1 lat2 lng2 : ℝ) : ℝ :=
  let lat1r := lat1 * (Real.pi / 180)
  let lng1r := lng1 * (Real.pi / 180)
  let lat2r := lat2 * (Real.pi / 180)
  let lng2r := lng2 * (Real.pi / 180)
  let dlng := lng2r - lng1r
  let y := Real.sin dlng * Real.cos lat2r
  let x := Real.cos lat1r * Real.sin lat2r - Real.sin lat1r * Real.cos lat2r * Real.cos dlng
  fmod (atan2 y x * (180 / Real.pi) + 360) 360

/-- Embedding of `calculate_turn_angle(prev_bearing, curr_bearing)` from
`app.py`: `min (|curr - prev|) (360 - |curr - prev|)`. -/
def calculate_turn_angle {α : Type} [LinearOrderedField α] (prev_bearing curr_bearing : α) : α :=
  let angle := |curr_bearing - prev_bearing|
  min angle (360 - angle)

/-- Embedding of `get_recommended_speed(turn_angle, road_type)` from `app.py`
(the caller always uses the default `road_type = "urban"`). -/
def get_recommended_speed {α : Type} [LinearOrderedField α] (turn_angle : α)
    (road_type : String) : α :=
  let base_speed : α := if road_type = "urban" then 40 else 50
  if turn_angle < 15 then min (MAX_SPEED_LIMIT : α) (base_speed + 10)
  else if turn_angle < 30 then min (MAX_SPEED_LIMIT : α) base_speed
  else if turn_angle < 45 then min 40 (base_speed - 10)
  else if turn_angle < 90 then min 30 (base_speed - 20)
  else 15

lemma get_recommended_speed_urban (x : ℝ) :
    get_recommended_speed x "urban" =
      if x < 15 then 50 else if x < 30 then 40 else if x < 45 then 30
      else if x < 90 then 20 else 15 := by
  unfold get_recommended_speed
  norm_num [MAX_SPEED_LIMIT, min_def]

lemma get_recommended_speed_other (x : ℝ) (rt : String) (h : rt ≠ "urban") :
    get_recommended_speed x rt =
      if x < 15 then 60 else if x < 30 then 50 else if x < 45 then 40
      else if x < 90 then 30 else 15 := by
  unfold get_recommended_speed
  simp only [h, if_false]
  norm_num [MAX_SPEED_LIMIT, min_def]

/-- Claim C1 (counterexample): at turn angle 0 with the default urban road
type, the recommended speed is 50, not `MAX_SPEED_LIMIT = 60`. -/
theorem recommended_speed_zero_urban_ne_max :
    get_recommended_speed (0 : ℝ) "urban" ≠ (MAX_SPEED_LIMIT : ℝ) := by
  rw [get_recommended_speed_urban]
  norm_num [MAX_SPEED_LIMIT]

/-- Claim C1 (amended): the recommended speed is monotonically non-increasing
in the turn angle for every road type; at angle 0 it returns 50 for the
default urban road type (and `MAX_SPEED_LIMIT` only for non-urban road
types); for every angle ≥ 90 — in particular 180 — it returns 15, the
minimum crawl speed. -/
theorem recommended_speed_policy :
    (∀ (rt : String) (a b : ℝ), a ≤ b →
        get_recommended_speed b rt ≤ get_recommended_speed a rt) ∧
    get_recommended_speed (0 : ℝ) "urban" = 50 ∧
    (∀ rt : String, rt ≠ "urban" → get_recommended_speed (0 : ℝ) rt = (MAX_SPEED_LIMIT : ℝ)) ∧
    (∀ (rt : String) (a : ℝ), 90 ≤ a → get_recommended_speed a rt = 15) := by
  refine ⟨?_, ?_, ?_, ?_⟩
  · intro rt a b hab
    by_cases hrt : rt = "urban"
    · subst hrt
      rw [get_recommended_speed_urban, get_recommended_speed_urban]
      split_ifs <;> linarith
    · rw [get_recommended_speed_other a rt hrt, get_recommended_speed_other b rt hrt]
      split_ifs <;> linarith
  · rw [get_recommended_speed_urban]; norm_num
  · intro rt hrt
    rw [get_recommended_speed_other 0 rt hrt]
    norm_num [MAX_SPEED_LIMIT]
  · intro rt a ha
    by_cases hrt : rt = "urban"
    · subst hrt; rw [get_recommended_speed_urban]; split_ifs <;> linarith
    · rw [get_recommended_speed_other a rt hrt]; split_ifs <;> linarith

/-- Witness for claim C1: the amended policy theorem instantiated at concrete
angles 10 ≤ 40 and road types "urban" / "highway". -/
theorem recommended_speed_policy_inst :
    (get_recommended_speed (40 : ℝ) "urban" ≤ get_recommended_speed (10 : ℝ) "urban") ∧
    get_recommended_speed (0 : ℝ) "urban" = 50 ∧
    get_recommended_speed (0 : ℝ) "highway" = (MAX_SPEED_LIMIT : ℝ) ∧
    get_recommended_speed (180 : ℝ) "urban" = 15 :=
  ⟨recommended_speed_policy.1 "urban" 10 40 (by norm_num),
   recommended_speed_policy.2.1,
   recommended_speed_policy.2.2.1 "highway" (by decide),
   recommended_speed_policy.2.2.2 "urban" 180 (by norm_num)⟩

lemma fmod_nonneg_lt (a : ℝ) {b : ℝ} (hb : 0 < b) : 0 ≤ fmod a b ∧ fmod a b < b := by
  have hb' : b ≠ 0 := ne_of_gt hb
  have key : b * (a / b) = a := by field_simp
  constructor
  · have h := Int.floor_le (a / b)
    have h2 : b * (⌊a / b⌋ : ℝ) ≤ b * (a / b) := by
      exact mul_le_mul_of_nonneg_left h hb.le
    unfold fmod
    rw [key] at h2
    linarith
  · have h := Int.lt_floor_add_one (a / b)
    have h2 : b * (a / b) < b * ((⌊a / b⌋ : ℝ) + 1) := by
      exact mul_lt_mul_of_pos_left h hb
    unfold fmod
    rw [key] at h2
    nlinarith

lemma atan2_zero_zero : atan2 0 0 = 0 := by
  unfold atan2
  have h : (⟨0, 0⟩ : ℂ) = 0 := by
    apply Complex.ext <;> simp
  rw [h, Complex.arg_zero]

/-- Claim C6: for every real (hence finite) input the bearing lies in
`[0, 360)`, and for two identical points the bearing is 0. -/
theorem calculate_bearing_range_identical :
    (∀ lat1 lng1 lat2 lng2 : ℝ,
        0 ≤ calculate_bearing lat1 lng1 lat2 lng2 ∧
        calculate_bearing lat1 lng1 lat2 lng2 < 360) ∧
    (∀ lat lng : ℝ, calculate_bearing lat lng lat lng = 0) := by
  constructor
  · intro lat1 lng1 lat2 lng2
    unfold calculate_bearing
    exact fmod_nonneg_lt _ (by norm_num)
  · intro lat lng
    unfold calculate_bearing
    dsimp only
    have hx : Real.cos (lat * (Real.pi / 180)) * Real.sin (lat * (Real.pi / 180)) -
        Real.sin (lat * (Real.pi / 180)) * Real.cos (lat * (Real.pi / 180)) *
          Real.cos (lng * (Real.pi / 180) - lng * (Real.pi / 180)) = 0 := by
      rw [sub_self, Real.cos_zero]
      ring
    have hy : Real.sin (lng * (Real.pi / 180) - lng * (Real.pi / 180)) *
        Real.cos (lat * (Real.pi / 180)) = 0 := by
      rw [sub_self, Real.sin_zero, zero_mul]
    rw [hy, hx, atan2_zero_zero, zero_mul, zero_add]
    unfold fmod
    norm_num

/-- Claim C7: the turn angle is symmetric in its two bearings and lies in
`[0, 180]` whenever both bearings lie in `[0, 360)`. -/
theorem calculate_turn_angle_symm_bounds :
    ∀ x y : ℝ, 0 ≤ x → x < 360 → 0 ≤ y → y < 360 →
      calculate_turn_angle x y = calculate_turn_angle y x ∧
      0 ≤ calculate_turn_angle x y ∧ calculate_turn_angle x y ≤ 180 := by
  intro x y hx0 hx hy0 hy
  unfold calculate_turn_angle
  have habs : |y - x| < 360 := by
    rw [abs_sub_lt_iff]
    constructor <;> linarith
  refine ⟨by rw [abs_sub_comm], ?_, ?_⟩
  · exact le_min (abs_nonneg _) (by linarith)
  · rcases le_total (|y - x|) 180 with h | h
    · exact le_trans (min_le_left _ _) h
    · exact le_trans (min_le_right _ _) (by linarith)

/-- Witness for claim C7: the symmetry-and-range theorem at the concrete
bearings 10 and 350. -/
theorem calculate_turn_angle_symm_bounds_inst :
    (0 : ℝ) ≤ 10 ∧ (10 : ℝ) < 360 ∧ (0 : ℝ) ≤ 350 ∧ (350 : ℝ) < 360 ∧
    (calculate_turn_angle (10 : ℝ) 350 = calculate_turn_angle (350 : ℝ) 10 ∧
     0 ≤ calculate_turn_angle (10 : ℝ) 350 ∧ calculate_turn_angle (10 : ℝ) 350 ≤ 180) :=
  ⟨by norm_num, by norm_num, by norm_num, by norm_num,
   calculate_turn_angle_symm_bounds 10 350 (by norm_num) (by norm_num)
     (by norm_num) (by norm_num)⟩

/-- Intermediate points synthesized for one segment of
`interpolate_route_points`: if the segment is longer than `1/points_per_km`
km, `int(distance_km * points_per_km)` points are placed by linear
interpolation in latitude/longitude space at ratios `j/(num_points+1)`. -/
noncomputable def segmentPoints (start stop : ℝ × ℝ) (distance_km points_per_km : ℝ) :
    List (ℝ × ℝ) :=
  if 1 / points_per_km < distance_km then
    let num_points := (⌊distance_km * points_per_km⌋).toNat
    (List.range num_points).map (fun j =>
      (start.1 + (stop.1 - start.1) * (((j : ℝ) + 1) / ((num_points : ℝ) + 1)),
       start.2 + (stop.2 - start.2) * (((j : ℝ) + 1) / ((num_points : ℝ) + 1))))
  else []

/-- Body of the segment loop of `interpolate_route_points`: walks the
consecutive pairs starting from `prev`, appending the synthesized points and
the segment end for each pair.  `distKm` models the external
`geodesic(start, end).kilometers` call; a `none` models the call raising,
which makes the whole loop fail (the source's `except` branch). -/
noncomputable def interpSegs (distKm : ℝ × ℝ → ℝ × ℝ → Option ℝ) (points_per_km : ℝ) :
    ℝ × ℝ → List (ℝ × ℝ) → Option (List (ℝ × ℝ))
  | _, [] => some []
  | prev, e :: rest =>
    match distKm prev e with
    | none => none
    | some d =>
      match interpSegs distKm points_per_km e rest with
      | none => none
      | some tail => some (segmentPoints prev e d points_per_km ++ e :: tail)

/-- Embedding of `interpolate_route_points(coords, points_per_km)` from
`app.py`: fewer than 2 points are returned unchanged; otherwise the densified
list starts with the first point; if any distance computation fails the
original list is returned (the source's `except ... return coords`). -/
noncomputable def interpolate_route_points (coords : List (ℝ × ℝ))
    (distKm : ℝ × ℝ → ℝ × ℝ → Option ℝ) (points_per_km : ℝ) : List (ℝ × ℝ) :=
  if coords.length < 2 then coords
  else
    match coords with
    | [] => coords
    | c0 :: rest =>
      match interpSegs distKm points_per_km c0 rest with
      | none => coords
      | some t => c0 :: t

lemma interpSegs_sublist (distKm : ℝ × ℝ → ℝ × ℝ → Option ℝ) (points_per_km : ℝ) :
    ∀ (l : List (ℝ × ℝ)) (prev : ℝ × ℝ) (t : List (ℝ × ℝ)),
      interpSegs distKm points_per_km prev l = some t → l.Sublist t := by
  intro l
  induction l with
  | nil =>
    intro prev t h
    simp only [interpSegs, Option.some.injEq] at h
    subst h
    exact List.Sublist.refl _
  | cons e rest ih =>
    intro prev t h
    simp only [interpSegs] at h
    cases hd : distKm prev e with
    | none => rw [hd] at h; exact absurd h (by simp)
    | some d =>
      rw [hd] at h
      cases hr : interpSegs distKm points_per_km e rest with
      | none => rw [hr] at h; exact absurd h (by simp)
      | some tail =>
        rw [hr] at h
        simp only [Option.some.injEq] at h
        subst h
        have h1 : rest.Sublist tail := ih e tail hr
        exact (h1.cons₂ e).trans (List.sublist_append_right _ _)

lemma getLast?_cons_ne_nil {α : Type} (a : α) {l : List α} (h : l ≠ []) :
    (a :: l).getLast? = l.getLast? := by
  cases l with
  | nil => exact absurd rfl h
  | cons b m => rfl

lemma getLast?_append_ne_nil {α : Type} (l1 : List α) {l2 : List α} (h : l2 ≠ []) :
    (l1 ++ l2).getLast? = l2.getLast? := by
  induction l1 with
  | nil => rfl
  | cons a m ih =>
    rw [List.cons_append, getLast?_cons_ne_nil a (by simp [h]), ih]

lemma interpSegs_getLast (distKm : ℝ × ℝ → ℝ × ℝ → Option ℝ) (points_per_km : ℝ) :
    ∀ (l : List (ℝ × ℝ)) (prev : ℝ × ℝ) (t : List (ℝ × ℝ)),
      interpSegs distKm points_per_km prev l = some t → l ≠ [] →
      t.getLast? = l.getLast? := by
  intro l
  induction l with
  | nil => intro prev t _ hne; exact absurd rfl hne
  | cons e rest ih =>
    intro prev t h _
    simp only [interpSegs] at h
    cases hd : distKm prev e with
    | none => rw [hd] at h; exact absurd h (by simp)
    | some d =>
      rw [hd] at h
      cases hr : interpSegs distKm points_per_km e rest with
      | none => rw [hr] at h; exact absurd h (by simp)
      | some tail =>
        rw [hr] at h
        simp only [Option.some.injEq] at h
        subst h
        by_cases hrest : rest = []
        · subst hrest
          simp only [interpSegs, Option.some.injEq] at hr
          subst hr
          simp
        · have htail : tail ≠ [] := by
            intro hte
            subst hte
            exact hrest (List.sublist_nil.mp (interpSegs_sublist distKm points_per_km rest e [] hr))
          rw [getLast?_append_ne_nil _ (by simp), getLast?_cons_ne_nil e htail,
            ih e tail hr hrest, getLast?_cons_ne_nil e hrest]

/-- Claim C5: for every input of at least 2 points, densification keeps the
first point, the last point, every original point in order (sublist), and
never returns fewer points than the input. -/
theorem interpolate_preserves_endpoints_order :
    ∀ (coords : List (ℝ × ℝ)) (distKm : ℝ × ℝ → ℝ × ℝ → Option ℝ) (points_per_km : ℝ),
      2 ≤ coords.length →
      (interpolate_route_points coords distKm points_per_km).head? = coords.head? ∧
      (interpolate_route_points coords distKm points_per_km).getLast? = coords.getLast? ∧
      coords.Sublist (interpolate_route_points coords distKm points_per_km) ∧
      coords.length ≤ (interpolate_route_points coords distKm points_per_km).length := by
  intro coords distKm ppk h2
  unfold interpolate_route_points
  rw [if_neg (by omega)]
  match coords, h2 with
  | c0 :: e :: rest, _ =>
    dsimp only
    cases hr : interpSegs distKm ppk c0 (e :: rest) with
    | none =>
      exact ⟨rfl, rfl, List.Sublist.refl _, le_refl _⟩
    | some t =>
      dsimp only
      have hsub : (e :: rest).Sublist t := interpSegs_sublist distKm ppk _ c0 t hr
      have htne : t ≠ [] := by
        intro hte
        subst hte
        exact absurd (List.sublist_nil.mp hsub) (by simp)
      refine ⟨rfl, ?_, hsub.cons₂ c0, (hsub.cons₂ c0).length_le⟩
      rw [getLast?_cons_ne_nil c0 htne, getLast?_cons_ne_nil c0 (by simp),
        interpSegs_getLast distKm ppk _ c0 t hr (by simp)]

/-- Witness for claim C5: the endpoint/order theorem at a concrete 2-point
route with a distance function that always fails. -/
theorem interpolate_preserves_endpoints_order_inst :
    2 ≤ ([((0 : ℝ), (0 : ℝ)), ((1 : ℝ), (1 : ℝ))] : List (ℝ × ℝ)).length ∧
    ((interpolate_route_points [((0 : ℝ), (0 : ℝ)), ((1 : ℝ), (1 : ℝ))]
        (fun _ _ => none) 10).head? = some ((0 : ℝ), (0 : ℝ)) ∧
     (interpolate_route_points [((0 : ℝ), (0 : ℝ)), ((1 : ℝ), (1 : ℝ))]
        (fun _ _ => none) 10).getLast? = some ((1 : ℝ), (1 : ℝ)) ∧
     2 ≤ (interpolate_route_points [((0 : ℝ), (0 : ℝ)), ((1 : ℝ), (1 : ℝ))]
        (fun _ _ => none) 10).length) := by
  have h := interpolate_preserves_endpoints_order
    [((0 : ℝ), (0 : ℝ)), ((1 : ℝ), (1 : ℝ))] (fun _ _ => none) 10 (by simp)
  exact ⟨by simp, h.1, h.2.1, h.2.2.2⟩

/-- Claim C9: densification fails soft — fewer than 2 points are returned
unchanged, and if the interpolation loop fails (`interpSegs` returns `none`,
modelling an exception in the external distance computation) the original
input sequence is returned. -/
theorem interpolate_fail_soft :
    ∀ (coords : List (ℝ × ℝ)) (distKm : ℝ × ℝ → ℝ × ℝ → Option ℝ) (points_per_km : ℝ),
      (coords.length < 2 → interpolate_route_points coords distKm points_per_km = coords) ∧
      (∀ (c0 : ℝ × ℝ) (rest : List (ℝ × ℝ)), coords = c0 :: rest →
        interpSegs distKm points_per_km c0 rest = none →
        interpolate_route_points coords distKm points_per_km = coords) := by
  intro coords distKm ppk
  constructor
  · intro hlen
    unfold interpolate_route_points
    rw [if_pos hlen]
  · intro c0 rest hc hnone
    subst hc
    unfold interpolate_route_points
    by_cases hlen : (c0 :: rest).length < 2
    · rw [if_pos hlen]
    · rw [if_neg hlen]
      dsimp only
      rw [hnone]

/-- Witness for claim C9: a 1-point route is returned unchanged, and a
2-point route whose distance function fails is returned unchanged. -/
theorem interpolate_fail_soft_inst :
    (([((0 : ℝ), (0 : ℝ))] : List (ℝ × ℝ)).length < 2 ∧
      interpolate_route_points [((0 : ℝ), (0 : ℝ))] (fun _ _ => none) 10 =
        [((0 : ℝ), (0 : ℝ))]) ∧
    (interpSegs (fun _ _ => none) 10 ((0 : ℝ), (0 : ℝ)) [((1 : ℝ), (1 : ℝ))] = none ∧
      interpolate_route_points [((0 : ℝ), (0 : ℝ)), ((1 : ℝ), (1 : ℝ))]
        (fun _ _ => none) 10 = [((0 : ℝ), (0 : ℝ)), ((1 : ℝ), (1 : ℝ))]) := by
  constructor
  · exact ⟨by simp,
      (interpolate_fail_soft [((0 : ℝ), (0 : ℝ))] (fun _ _ => none) 10).1 (by simp)⟩
  · refine ⟨by simp [interpSegs], ?_⟩
    exact (interpolate_fail_soft [((0 : ℝ), (0 : ℝ)), ((1 : ℝ), (1 : ℝ))]
      (fun _ _ => none) 10).2 ((0 : ℝ), (0 : ℝ)) [((1 : ℝ), (1 : ℝ))] rfl
      (by simp [interpSegs])

/-- Congestion levels drawn by the traffic simulation in `get_traffic_data`. -/
inductive TrafficLevel
  | light
  | moderate
  | heavy
deriving DecidableEq, Repr

/-- Fixed delay-factor table of `get_traffic_data`:
`{'light': 1.0, 'moderate': 1.3, 'heavy': 1.8}`. -/
def delay_factor_of : TrafficLevel → ℚ
  | TrafficLevel.light => 1
  | TrafficLevel.moderate => 13 / 10
  | TrafficLevel.heavy => 9 / 5

/-- Embedding of the dicts appended by `get_traffic_data`. -/
structure TrafficSample where
  location : ℝ × ℝ
  traffic_level : TrafficLevel
  delay_factor : ℚ

/-- The sampling `coords[::5] if len(coords) > 5 else coords` of
`get_traffic_data`. -/
def sampleEvery5 (coords : List (ℝ × ℝ)) : List (ℝ × ℝ) :=
  if 5 < coords.length then
    (coords.enum.filter (fun ip => ip.1 % 5 = 0)).map Prod.snd
  else coords

/-- Embedding of `get_traffic_data(coords)` from `app.py`.  The call
`np.random.choice(['light','moderate','heavy'], p=[0.4,0.4,0.2])` is an
external weighted random draw; it is injected as `choice`, giving the level
drawn for the k-th sampled point.  Note the source function receives no
wall-clock hour or any other time input. -/
def get_traffic_data (coords : List (ℝ × ℝ)) (choice : ℕ → TrafficLevel) :
    List TrafficSample :=
  (sampleEvery5 coords).enum.map (fun ip =>
    { location := ip.2, traffic_level := choice ip.1,
      delay_factor := delay_factor_of (choice ip.1) })

/-- The traffic simulation as invoked for an analysis taking place at
wall-clock hour `hour` (0–23): the source passes no time information to
`get_traffic_data`, so the hour is ignored. -/
def get_traffic_data_at_hour (hour : ℕ) (coords : List (ℝ × ℝ))
    (choice : ℕ → TrafficLevel) : List TrafficSample :=
  get_traffic_data coords choice

/-- Concrete one-point route used to instantiate the risk and traffic
functions on explicit inputs. -/
noncomputable def coords0 : List (ℝ × ℝ) := [((0 : ℝ), (0 : ℝ))]

/-- Random source that always draws `light`. -/
def choiceL : ℕ → TrafficLevel := fun _ => TrafficLevel.light

/-- The traffic sample produced for `coords0` under `choiceL`. -/
noncomputable def sample0 : TrafficSample :=
  { location := ((0 : ℝ), (0 : ℝ)), traffic_level := TrafficLevel.light, delay_factor := 1 }

lemma get_traffic_data_coords0 : get_traffic_data coords0 choiceL = [sample0] := by
  have h : sampleEvery5 coords0 = coords0 := by
    unfold sampleEvery5 coords0
    rw [if_neg (by simp)]
  unfold get_traffic_data
  rw [h]
  rfl

/-- Claim C4 (counterexample): with a fixed random source, the simulator's
output on a concrete non-empty route is identical at hour 8 (a would-be
morning-peak band) and hour 3 (a would-be off-peak band) — the code reads no
clock, so nothing varies across hours. -/
theorem traffic_same_across_hours :
    get_traffic_data_at_hour 8 coords0 choiceL = get_traffic_data_at_hour 3 coords0 choiceL ∧
    get_traffic_data_at_hour 8 coords0 choiceL ≠ [] := by
  refine ⟨rfl, ?_⟩
  unfold get_traffic_data_at_hour
  rw [get_traffic_data_coords0]
  simp

/-- Claim C4 (amended): `get_traffic_data` receives no time input, so with the
random source fixed its output is the same at every wall-clock hour; each
sample's delay factor is the fixed table light = 1.0, moderate = 1.3,
heavy = 1.8 applied to its drawn level. -/
theorem traffic_hour_independent :
    (∀ (h1 h2 : ℕ) (coords : List (ℝ × ℝ)) (choice : ℕ → TrafficLevel),
        get_traffic_data_at_hour h1 coords choice =
          get_traffic_data_at_hour h2 coords choice) ∧
    (∀ (coords : List (ℝ × ℝ)) (choice : ℕ → TrafficLevel) (s : TrafficSample),
        s ∈ get_traffic_data coords choice →
        s.delay_factor = delay_factor_of s.traffic_level) := by
  constructor
  · intro h1 h2 coords choice
    rfl
  · intro coords choice s hs
    unfold get_traffic_data at hs
    rw [List.mem_map] at hs
    obtain ⟨ip, _, hip⟩ := hs
    subst hip
    rfl

/-- Witness for claim C4: the hour-independence theorem at hours 8 and 22 on
the concrete route `coords0`, and the delay-table consistency at the concrete
sample it produces. -/
theorem traffic_hour_independent_inst :
    get_traffic_data_at_hour 8 coords0 choiceL = get_traffic_data_at_hour 22 coords0 choiceL ∧
    (sample0 ∈ get_traffic_data coords0 choiceL ∧
      sample0.delay_factor = delay_factor_of sample0.traffic_level) :=
  ⟨traffic_hour_independent.1 8 22 coords0 choiceL,
   by rw [get_traffic_data_coords0]; exact List.mem_singleton_self sample0,
   traffic_hour_independent.2 coords0 choiceL sample0
     (by rw [get_traffic_data_coords0]; exact List.mem_singleton_self sample0)⟩

/-- Embedding of the POI dicts consumed by `identify_high_risk_zones`
(`{'name': ..., 'location': (lat, lng), 'type': keyword}`). -/
structure PointOfInterest where
  name : String
  type : String
  location : ℝ × ℝ

/-- The explanatory factor strings appended by `identify_high_risk_zones`,
as an enumeration. -/
inductive RiskFactor
  | hospitalsNearby (count : ℕ)
  | sharpTurn
  | crowdedZone
  | constructionZone
deriving DecidableEq, Repr

/-- Embedding of the risk-zone dicts produced by `identify_high_risk_zones`. -/
structure RiskZone where
  location : ℝ × ℝ
  risk_score : ℕ
  risk_factors : List RiskFactor
  risk_level : String

/-- Number of POIs of type `hospital` within 500 m of the point, from
`identify_high_risk_zones`.  `distMeters` models the external
`geodesic(p, poi.location).meters` call. -/
noncomputable def hospitalCount (pois : List PointOfInterest)
    (distMeters : ℝ × ℝ → ℝ × ℝ → ℝ) (p : ℝ × ℝ) : ℕ :=
  (pois.filter (fun poi =>
    decide (poi.type = "hospital" ∧ distMeters p poi.location < 500))).length

/-- Turn-sharpness contribution of `identify_high_risk_zones` at index `i`:
only every 10th index with `0 < i` and `i < len(coords) - 10` is checked, and
3 is added when the turn angle between the bearings to/from the points 10
indices away exceeds 30 degrees. -/
noncomputable def turnScore (coords : List (ℝ × ℝ)) (i : ℕ) (p : ℝ × ℝ) : ℕ :=
  if i % 10 = 0 ∧ 0 < i ∧ i < coords.length - 10 then
    let prev := coords.getD (i - 10) ((0 : ℝ), (0 : ℝ))
    let nxt := coords.getD (i + 10) ((0 : ℝ), (0 : ℝ))
    if 30 < calculate_turn_angle (calculate_bearing prev.1 prev.2 p.1 p.2)
        (calculate_bearing p.1 p.2 nxt.1 nxt.2) then 3 else 0
  else 0


/-- Total risk score accumulated by one iteration of the loop of
`identify_high_risk_zones` at index `i`, point `p`: the hospital-proximity
contribution (`hospital_count * 2` when positive), the turn-sharpness
contribution, 4 with probability 0.05 ("Crowded zone") and 5 with
probability 0.03 ("Construction zone").  The source's `risk_score` is a
Python int; `rand` injects the two `np.random.random()` draws of point `i`
as draws `2*i` and `2*i+1`. -/
noncomputable def riskScoreAt (coords : List (ℝ × ℝ)) (pois : List PointOfInterest)
    (distMeters : ℝ × ℝ → ℝ × ℝ → ℝ) (rand : ℕ → ℝ) (i : ℕ) (p : ℝ × ℝ) : ℕ :=
  (if 0 < hospitalCount pois distMeters p then hospitalCount pois distMeters p * 2 else 0) +
  turnScore coords i p +
  (if rand (2 * i) < 0.05 then 4 else 0) +
  (if rand (2 * i + 1) < 0.03 then 5 else 0)

/-- Factor strings collected by one iteration of the loop of
`identify_high_risk_zones`, in the source's append order. -/
noncomputable def riskFactorsAt (coords : List (ℝ × ℝ)) (pois : List PointOfInterest)
    (distMeters : ℝ × ℝ → ℝ × ℝ → ℝ) (rand : ℕ → ℝ) (i : ℕ) (p : ℝ × ℝ) :
    List RiskFactor :=
  (if 0 < hospitalCount pois distMeters p then
    [RiskFactor.hospitalsNearby (hospitalCount pois distMeters p)] else []) ++
  (if turnScore coords i p = 0 then [] else [RiskFactor.sharpTurn]) ++
  (if rand (2 * i) < 0.05 then [RiskFactor.crowdedZone] else []) ++
  (if rand (2 * i + 1) < 0.03 then [RiskFactor.constructionZone] else [])

/-- Per-point body of the loop of `identify_high_risk_zones`: a zone is
appended iff the accumulated score reaches 3, with level `"High"` iff the
score reaches 6 and `"Medium"` otherwise. -/
noncomputable def riskZoneAt (coords : List (ℝ × ℝ)) (pois : List PointOfInterest)
    (distMeters : ℝ × ℝ → ℝ × ℝ → ℝ) (rand : ℕ → ℝ) (i : ℕ) (p : ℝ × ℝ) :
    Option RiskZone :=
  if 3 ≤ riskScoreAt coords pois distMeters rand i p then
    some { location := p,
           risk_score := riskScoreAt coords pois distMeters rand i p,
           risk_factors := riskFactorsAt coords pois distMeters rand i p,
           risk_level :=
             if 6 ≤ riskScoreAt coords pois distMeters rand i p then "High" else "Medium" }
  else none

/-- Embedding of `identify_high_risk_zones(coords, pois)` from `app.py`:
the loop `for i, (lat, lng) in enumerate(coords)` with conditional append
becomes a `filterMap` over the enumerated points.  `distMeters` models the
external `geodesic(...).meters` call and `rand` the `np.random.random()`
draws. -/
noncomputable def identify_high_risk_zones (coords : List (ℝ × ℝ))
    (pois : List PointOfInterest) (distMeters : ℝ × ℝ → ℝ × ℝ → ℝ)
    (rand : ℕ → ℝ) : List RiskZone :=
  coords.enum.filterMap (fun ip => riskZoneAt coords pois distMeters rand ip.1 ip.2)

lemma mem_identify_iff (coords : List (ℝ × ℝ)) (pois : List PointOfInterest)
    (distMeters : ℝ × ℝ → ℝ × ℝ → ℝ) (rand : ℕ → ℝ) (z : RiskZone)
    (hz : z ∈ identify_high_risk_zones coords pois distMeters rand) :
    ∃ ip : ℕ × ℝ × ℝ, ip ∈ coords.enum ∧
      3 ≤ riskScoreAt coords pois distMeters rand ip.1 ip.2 ∧
      z = { location := ip.2,
            risk_score := riskScoreAt coords pois distMeters rand ip.1 ip.2,
            risk_factors := riskFactorsAt coords pois distMeters rand ip.1 ip.2,
            risk_level := if 6 ≤ riskScoreAt coords pois distMeters rand ip.1 ip.2
              then "High" else "Medium" } := by
  unfold identify_high_risk_zones at hz
  rw [List.mem_filterMap] at hz
  obtain ⟨ip, hmem, h⟩ := hz
  unfold riskZoneAt at h
  split at h
  · next hscore =>
    rw [Option.some.injEq] at h
    exact ⟨ip, hmem, hscore, h.symm⟩
  · exact absurd h (by simp)

/-- Claim C2 (amended, part proved): every RiskZone emitted by
`identify_high_risk_zones` has `risk_score ≥ 3`, the Medium threshold;
lower-scoring points are dropped.  (The scores are unnormalized integer sums
and can exceed 10 — see the counterexample.) -/
theorem risk_zone_score_ge_medium :
    ∀ (coords : List (ℝ × ℝ)) (pois : List PointOfInterest)
      (distMeters : ℝ × ℝ → ℝ × ℝ → ℝ) (rand : ℕ → ℝ) (z : RiskZone),
      z ∈ identify_high_risk_zones coords pois distMeters rand → 3 ≤ z.risk_score := by
  intro coords pois distMeters rand z hz
  obtain ⟨ip, _, hscore, hzeq⟩ := mem_identify_iff coords pois distMeters rand z hz
  subst hzeq
  exact hscore

/-- Claim C10: in every output zone the level is `"High"` exactly when the
score is at least 6, `"Medium"` exactly when the score is in `[3, 6)`, and no
other level value occurs. -/
theorem risk_level_consistent_with_score :
    ∀ (coords : List (ℝ × ℝ)) (pois : List PointOfInterest)
      (distMeters : ℝ × ℝ → ℝ × ℝ → ℝ) (rand : ℕ → ℝ) (z : RiskZone),
      z ∈ identify_high_risk_zones coords pois distMeters rand →
      (z.risk_level = "High" ↔ 6 ≤ z.risk_score) ∧
      (z.risk_level = "Medium" ↔ (3 ≤ z.risk_score ∧ z.risk_score < 6)) ∧
      (z.risk_level = "High" ∨ z.risk_level = "Medium") := by
  intro coords pois distMeters rand z hz
  obtain ⟨ip, _, hscore, hzeq⟩ := mem_identify_iff coords pois distMeters rand z hz
  subst hzeq
  dsimp only
  by_cases h6 : 6 ≤ riskScoreAt coords pois distMeters rand ip.1 ip.2
  · rw [if_pos h6]
    refine ⟨⟨fun _ => h6, fun _ => rfl⟩, ⟨fun hlv => ?_, fun hsc => ?_⟩, Or.inl rfl⟩
    · exact absurd hlv (by decide)
    · omega
  · rw [if_neg h6]
    refine ⟨⟨fun hlv => ?_, fun hsc => absurd hsc h6⟩,
      ⟨fun _ => ⟨hscore, by omega⟩, fun _ => rfl⟩, Or.inr rfl⟩
    exact absurd hlv (by decide)

/-- Concrete hospital POI at the origin. -/
noncomputable def poiH : PointOfInterest :=
  { name := "H", type := "hospital", location := ((0 : ℝ), (0 : ℝ)) }

/-- Six copies of the hospital POI at the origin. -/
noncomputable def pois0 : List PointOfInterest := List.replicate 6 poiH

/-- Distance function placing every POI at distance 0 (the value
`geodesic` returns for identical points). -/
noncomputable def dist0 : ℝ × ℝ → ℝ × ℝ → ℝ := fun _ _ => 0

/-- Random source whose draws are all 1, so neither 5%-probability nor
3%-probability event fires. -/
noncomputable def rand1 : ℕ → ℝ := fun _ => 1

/-- The risk zone produced at the single point of `coords0` with six
hospitals at distance 0: score 6 * 2 = 12, level High. -/
noncomputable def zone0 : RiskZone :=
  { location := ((0 : ℝ), (0 : ℝ)), risk_score := 12,
    risk_factors := [RiskFactor.hospitalsNearby 6], risk_level := "High" }

lemma hospitalCount_pois0 : hospitalCount pois0 dist0 ((0 : ℝ), (0 : ℝ)) = 6 := by
  unfold hospitalCount
  have h : ∀ poi ∈ pois0,
      (decide (poi.type = "hospital" ∧ dist0 ((0 : ℝ), (0 : ℝ)) poi.location < 500)) = true := by
    intro poi hp
    have hpe : poi = poiH := List.eq_of_mem_replicate hp
    subst hpe
    rw [decide_eq_true_eq]
    refine ⟨rfl, ?_⟩
    unfold dist0
    norm_num
  rw [List.filter_eq_self.mpr h]
  unfold pois0
  exact List.length_replicate 6 poiH

lemma turnScore_coords0 : turnScore coords0 0 ((0 : ℝ), (0 : ℝ)) = 0 := by
  unfold turnScore
  rw [if_neg]
  simp

lemma riskScoreAt_coords0 : riskScoreAt coords0 pois0 dist0 rand1 0 ((0 : ℝ), (0 : ℝ)) = 12 := by
  unfold riskScoreAt
  rw [hospitalCount_pois0, turnScore_coords0]
  have h1 : ¬ (rand1 (2 * 0) < 0.05) := by unfold rand1; norm_num
  have h2 : ¬ (rand1 (2 * 0 + 1) < 0.03) := by unfold rand1; norm_num
  rw [if_neg h1, if_neg h2, if_pos (by norm_num)]

lemma riskFactorsAt_coords0 :
    riskFactorsAt coords0 pois0 dist0 rand1 0 ((0 : ℝ), (0 : ℝ)) =
      [RiskFactor.hospitalsNearby 6] := by
  unfold riskFactorsAt
  rw [hospitalCount_pois0, turnScore_coords0]
  have h1 : ¬ (rand1 (2 * 0) < 0.05) := by unfold rand1; norm_num
  have h2 : ¬ (rand1 (2 * 0 + 1) < 0.03) := by unfold rand1; norm_num
  rw [if_neg h1, if_neg h2, if_pos (by norm_num), if_pos rfl]
  rfl

lemma identify_coords0 : identify_high_risk_zones coords0 pois0 dist0 rand1 = [zone0] := by
  unfold identify_high_risk_zones
  have henum : coords0.enum = [(0, ((0 : ℝ), (0 : ℝ)))] := rfl
  rw [henum, List.filterMap_cons, List.filterMap_nil]
  have hz : riskZoneAt coords0 pois0 dist0 rand1 0 ((0 : ℝ), (0 : ℝ)) = some zone0 := by
    unfold riskZoneAt
    rw [riskScoreAt_coords0, riskFactorsAt_coords0, if_pos (by norm_num),
      if_pos (by norm_num)]
    rfl
  rw [hz]

/-- Claim C2 (counterexample): on a concrete input (one point, six hospitals
within 500 m, no random hazards) the identifier outputs a zone whose score is
12 — the scores are not clamped/normalized into [0, 10]. -/
theorem risk_zone_score_exceeds_ten :
    ∃ z ∈ identify_high_risk_zones coords0 pois0 dist0 rand1, 10 < z.risk_score := by
  refine ⟨zone0, ?_, ?_⟩
  · rw [identify_coords0]
    exact List.mem_singleton_self zone0
  · norm_num [zone0]

/-- Witness for claim C2: the score-threshold theorem applied to the concrete
zone `zone0` produced on `coords0`. -/
theorem risk_zone_score_ge_medium_inst :
    zone0 ∈ identify_high_risk_zones coords0 pois0 dist0 rand1 ∧ 3 ≤ zone0.risk_score :=
  ⟨by rw [identify_coords0]; exact List.mem_singleton_self zone0,
   risk_zone_score_ge_medium coords0 pois0 dist0 rand1 zone0
     (by rw [identify_coords0]; exact List.mem_singleton_self zone0)⟩

/-- Claim C3 (counterexample): the scoring loop runs over every point,
including the first and last — on the concrete one-point route `coords0` the
identifier emits a zone located at the first (= last) input point. -/
theorem risk_zone_at_first_point :
    ∃ z ∈ identify_high_risk_zones coords0 pois0 dist0 rand1,
      coords0.head? = some z.location ∧ coords0.getLast? = some z.location := by
  refine ⟨zone0, ?_, rfl, rfl⟩
  rw [identify_coords0]
  exact List.mem_singleton_self zone0

/-- Claim C3 (amended): only the turn-sharpness factor is restricted to
interior indices — it contributes 0 at the first point (`i = 0`) and at the
last point (`i + 1 = len(coords)`); the hospital-proximity and random-hazard
factors are evaluated at every point, so zones can appear at the endpoints
(see the counterexample). -/
theorem turn_factor_zero_at_endpoints :
    ∀ (coords : List (ℝ × ℝ)) (i : ℕ) (p : ℝ × ℝ),
      (i = 0 ∨ i + 1 = coords.length) → turnScore coords i p = 0 := by
  intro coords i p h
  unfold turnScore
  rw [if_neg]
  rcases h with h0 | hlast
  · subst h0
    simp
  · intro hc
    omega

/-- Witness for claim C3: the amended endpoint theorem applied at index 0 of
the concrete route `coords0`. -/
theorem turn_factor_zero_at_endpoints_inst :
    ((0 : ℕ) = 0 ∨ (0 : ℕ) + 1 = coords0.length) ∧
      turnScore coords0 0 ((0 : ℝ), (0 : ℝ)) = 0 :=
  ⟨Or.inl rfl,
   turn_factor_zero_at_endpoints coords0 0 ((0 : ℝ), (0 : ℝ)) (Or.inl rfl)⟩

/-- Witness for claim C10: the level/score-consistency theorem applied to the
concrete zone `zone0` (score 12, level High) produced on `coords0`. -/
theorem risk_level_consistent_with_score_inst :
    zone0 ∈ identify_high_risk_zones coords0 pois0 dist0 rand1 ∧
    ((zone0.risk_level = "High" ↔ 6 ≤ zone0.risk_score) ∧
     (zone0.risk_level = "Medium" ↔ (3 ≤ zone0.risk_score ∧ zone0.risk_score < 6)) ∧
     (zone0.risk_level = "High" ∨ zone0.risk_level = "Medium")) :=
  ⟨by rw [identify_coords0]; exact List.mem_singleton_self zone0,
   risk_level_consistent_with_score coords0 pois0 dist0 rand1 zone0
     (by rw [identify_coords0]; exact List.mem_singleton_self zone0)⟩

/-- The `route_analysis` block of the report dict. -/
structure RouteAnalysisStats where
  total_points : ℕ
  points_per_km : ℚ
  high_risk_zones : ℕ
  medium_risk_zones : ℕ
  hospitals_along_route : ℕ
  fuel_stations : ℕ
  police_stations : ℕ

/-- The `traffic_analysis` block of the report dict. -/
structure TrafficAnalysisStats where
  light_traffic_segments : ℕ
  moderate_traffic_segments : ℕ
  heavy_traffic_segments : ℕ
  average_delay_factor : ℚ

/-- The report dict returned by `generate_route_report`. -/
structure RouteReport where
  total_distance : String
  total_duration : String
  truck_weight : ℚ
  max_speed_limit : ℕ
  route_analysis : RouteAnalysisStats
  traffic_analysis : TrafficAnalysisStats
  safety_recommendations : List String

/-- The `distance_value` extraction of `generate_route_report`: 1 when
`total_distance` is falsy or has no parts, else the parse of the first
whitespace-separated token, defaulting to 1 when `float(...)` raises (a
failing parse is a `none` from the injected `parseFloat`). -/
def distanceValueOf (total_distance : String) (parseFloat : String → Option ℚ) : ℚ :=
  if total_distance = "" then 1
  else
    match (total_distance.splitOn " ").filter (fun w => w ≠ "") with
    | [] => 1
    | w :: _ => (parseFloat w).getD 1

/-- The five-item `safety_recommendations` list of the report's main path. -/
def safetyRecommendationsMain (risk_zones : List RiskZone) : List String :=
  ["Maintain speed below " ++ toString MAX_SPEED_LIMIT ++ " kmph at all times",
   "Extra caution required at " ++
     toString (risk_zones.filter (fun z => z.risk_level = "High")).length ++
     " high-risk zones",
   "Reduce speed to 15-30 kmph at sharp turns",
   "Plan for fuel stops at marked stations",
   "Keep emergency contacts handy for police/hospital locations"]

/-- Embedding of `generate_route_report(...)` from `app.py`.  The only
statement of the guarded body that can raise on well-typed input is
`len(coords) / distance_value` (a `ZeroDivisionError` when the parsed
distance is 0), in which case the source's `except` branch returns the
reduced fallback report with zeroed counts, delay factor 1.0 and a single
recommendation; the embedding selects that branch exactly when
`distance_value = 0`.  `parseFloat` injects Python's `float(...)` string
parsing. -/
def generate_route_report (coords : List (ℝ × ℝ)) (pois : List PointOfInterest)
    (risk_zones : List RiskZone) (traffic_data : List TrafficSample)
    (total_distance total_duration : String) (parseFloat : String → Option ℚ) :
    RouteReport :=
  let distance_value := distanceValueOf total_distance parseFloat
  if distance_value = 0 then
    { total_distance := if total_distance = "" then "N/A" else total_distance,
      total_duration := if total_duration = "" then "N/A" else total_duration,
      truck_weight := TRUCK_WEIGHT,
      max_speed_limit := MAX_SPEED_LIMIT,
      route_analysis :=
        { total_points := coords.length, points_per_km := 1,
          high_risk_zones := 0, medium_risk_zones := 0,
          hospitals_along_route := 0, fuel_stations := 0, police_stations := 0 },
      traffic_analysis :=
        { light_traffic_segments := 0, moderate_traffic_segments := 0,
          heavy_traffic_segments := 0, average_delay_factor := 1 },
      safety_recommendations :=
        ["Maintain speed below " ++ toString MAX_SPEED_LIMIT ++ " kmph at all times"] }
  else
    { total_distance := total_distance,
      total_duration := total_duration,
      truck_weight := TRUCK_WEIGHT,
      max_speed_limit := MAX_SPEED_LIMIT,
      route_analysis :=
        { total_points := coords.length,
          points_per_km := (coords.length : ℚ) / distance_value,
          high_risk_zones := (risk_zones.filter (fun z => z.risk_level = "High")).length,
          medium_risk_zones := (risk_zones.filter (fun z => z.risk_level = "Medium")).length,
          hospitals_along_route := (pois.filter (fun p => p.type = "hospital")).length,
          fuel_stations := (pois.filter (fun p => p.type = "fuel")).length,
          police_stations := (pois.filter (fun p => p.type = "police")).length },
      traffic_analysis :=
        { light_traffic_segments :=
            (traffic_data.filter (fun t => t.traffic_level = TrafficLevel.light)).length,
          moderate_traffic_segments :=
            (traffic_data.filter (fun t => t.traffic_level = TrafficLevel.moderate)).length,
          heavy_traffic_segments :=
            (traffic_data.filter (fun t => t.traffic_level = TrafficLevel.heavy)).length,
          average_delay_factor :=
            if traffic_data.isEmpty then 1
            else (traffic_data.map (fun t => t.delay_factor)).sum / traffic_data.length },
      safety_recommendations := safetyRecommendationsMain risk_zones }

/-- Claim C8: on empty traffic, POI and risk-zone inputs the report always has
average delay factor 1.0, all POI-category, traffic-level and risk-zone
counts 0, and a non-empty safety-recommendations list — on every coordinate
list, distance/duration string and parser (the function is total: the
source's `except` branch is the `distance_value = 0` fallback, which also
satisfies all of these). -/
theorem generate_route_report_empty_inputs :
    ∀ (coords : List (ℝ × ℝ)) (total_distance total_duration : String)
      (parseFloat : String → Option ℚ),
      (generate_route_report coords [] [] [] total_distance total_duration
          parseFloat).traffic_analysis.average_delay_factor = 1 ∧
      (generate_route_report coords [] [] [] total_distance total_duration
          parseFloat).route_analysis.high_risk_zones = 0 ∧
      (generate_route_report coords [] [] [] total_distance total_duration
          parseFloat).route_analysis.medium_risk_zones = 0 ∧
      (generate_route_report coords [] [] [] total_distance total_duration
          parseFloat).route_analysis.hospitals_along_route = 0 ∧
      (generate_route_report coords [] [] [] total_distance total_duration
          parseFloat).route_analysis.fuel_stations = 0 ∧
      (generate_route_report coords [] [] [] total_distance total_duration
          parseFloat).route_analysis.police_stations = 0 ∧
      (generate_route_report coords [] [] [] total_distance total_duration
          parseFloat).traffic_analysis.light_traffic_segments = 0 ∧
      (generate_route_report coords [] [] [] total_distance total_duration
          parseFloat).traffic_analysis.moderate_traffic_segments = 0 ∧
      (generate_route_report coords [] [] [] total_distance total_duration
          parseFloat).traffic_analysis.heavy_traffic_segments = 0 ∧
      (generate_route_report coords [] [] [] total_distance total_duration
          parseFloat).safety_recommendations ≠ [] := by
  intro coords total_distance total_duration parseFloat
  unfold generate_route_report
  by_cases hd : distanceValueOf total_distance parseFloat = 0
  · rw [if_pos hd]
    refine ⟨rfl, rfl, rfl, rfl, rfl, rfl, rfl, rfl, rfl, by simp⟩
  · rw [if_neg hd]
    refine ⟨rfl, rfl, rfl, rfl, rfl, rfl, rfl, rfl, rfl, by simp [safetyRecommendationsMain]⟩
